import Mathlib

/-!
Verification of the HRTF convolution plugin (`hrtf_conv`, `src/src/lib.rs`).

The core under verification is the per-block steering loop of `HrtfConv::process`
and the setup path `HrtfConv::initialize`.  The embedding keeps the exact control
flow of the Rust source:

* Control values (azimuth, elevation, distance), directions and filter
  coefficient buffers are abstracted over types `C`, `D`, `F`; the source
  compares directions with exact `!=` on the coordinate triple, which the
  embedding models with decidable equality on `D`.
* The external capabilities consumed by the loop — the direction computation,
  the SOFA dataset lookup (`sofa.filter`, which writes coefficients into the
  owned buffer and never returns an error), the convolution engine
  (`render.set_filter`, fallible; `render.process_block`, fallible) and the two
  fallible construction steps of `initialize` — are collected in an `Env` record
  of oracle functions, so theorems quantify over every possible behaviour of
  the external crates.
* The real-valued direction model itself (`lib.rs` lines 205-213 and 149-156) is
  embedded separately as `computeDirection` over real numbers, idealizing `f32`
  arithmetic as exact real arithmetic.
* `Vec<f32>` is embedded as `Vec`, a list together with its capacity, with the
  Rust growth semantics of `clear`, `resize` and `extend_from_slice`.
* Each `process` call additionally records the ordered list of external calls
  it makes (`Event.lookup` for `sofa.filter`, `Event.install` for
  `render.set_filter`, `Event.processBlock` for `render.process_block`) so that
  counting and ordering claims can be stated directly.
-/

namespace HrtfConv

/-- An external call performed during one `process` invocation, in source
order: `lookup` is `sofa.filter`, `install` is `render.set_filter`,
`processBlock` is `render.process_block`. -/
inductive Event : Type where
  | lookup : Event
  | install : Event
  | processBlock : Event
deriving DecidableEq

/-- The status a `process` call reports to the host (nih-plug `ProcessStatus`;
only the two constructors the plugin uses). -/
inductive ProcessStatus : Type where
  | normal : ProcessStatus
  | error : String → ProcessStatus
deriving DecidableEq

/-- The error message the plugin returns on both failure paths of `process`
(`lib.rs` lines 221 and 247). -/
def hrtfErrMsg : String := "HRTF processing failed"

/-- A `Vec<f32>`-like buffer: the stored samples together with the allocated
capacity, tracking Rust `Vec` growth semantics. -/
structure Vec (S : Type) : Type where
  data : List S
  cap : Nat
deriving DecidableEq

/-- `Vec::clear`: drops the elements, keeps the allocation. -/
def Vec.clear {S : Type} (v : Vec S) : Vec S :=
  { data := [], cap := v.cap }

/-- `Vec::extend_from_slice`: appends a slice, growing the allocation only when
the new length exceeds the current capacity. -/
def Vec.extendFromSlice {S : Type} (v : Vec S) (s : List S) : Vec S :=
  { data := v.data ++ s, cap := max v.cap (v.data.length + s.length) }

/-- `Vec::resize(n, x)`: truncates or pads with `x` to length `n`, growing the
allocation only when `n` exceeds the current capacity. -/
def Vec.resize {S : Type} (v : Vec S) (n : Nat) (x : S) : Vec S :=
  { data :=
      if n ≤ v.data.length then v.data.take n
      else v.data ++ List.replicate (n - v.data.length) x,
    cap := max v.cap n }

/-- The convolution engine's mutable identity: the impulse response currently
installed by the last successful `set_filter`. -/
structure EngineState (F : Type) : Type where
  installed : F
deriving DecidableEq

/-- The plugin's persistent fields (`struct HrtfConv`, `lib.rs` lines 63-70):
dataset handle, owned filter buffer, engine, scratch buffer, and the direction
of the last successful filter installation. -/
structure PluginState (S D F : Type) : Type where
  sofa : Option Unit
  filter : Option F
  renderer : Option (EngineState F)
  scratchBuffer : Vec S
  lastDirection : D
deriving DecidableEq

/-- `HrtfConv::default` (`lib.rs` lines 72-84): everything unset, empty scratch
buffer with zero capacity, last direction a given initial value (the source
uses the zero triple). -/
def defaultState {S D F : Type} (d0 : D) : PluginState S D F :=
  { sofa := none, filter := none, renderer := none,
    scratchBuffer := { data := [], cap := 0 }, lastDirection := d0 }

/-- The behaviour of the external collaborators, as oracle functions:
`compute` is the direction model applied to the three control values read for
the block, `lookup` is the SOFA dataset lookup (infallible — `sofa.filter`
returns no error), `setFilterOk` tells whether `render.set_filter` accepts a
filter, `renderBlock` is the engine's block renderer (`none` models a
`process_block` error), and `openOk` / `buildOk` are the outcomes of the two
fallible construction steps of `initialize`. -/
structure Env (C S D F : Type) : Type where
  compute : C → C → C → D
  lookup : D → F
  setFilterOk : F → Bool
  renderBlock : F → List S → Option (List S × List S)
  openOk : Bool
  buildOk : Bool

/-- The host's audio buffer: per-channel sample slices plus the per-channel
sample count reported by `buffer.samples()`. -/
structure Buffer (S : Type) : Type where
  channels : List (List S)
  numSamples : Nat
deriving DecidableEq

/-- Outcome of the direction-change branch of `process` (`lib.rs` lines
215-227): the plugin state after the branch, the engine state after the
branch, the external calls it made in order, and whether `set_filter` failed
(which makes `process` return an error immediately). -/
structure SteerResult (S D F : Type) : Type where
  state : PluginState S D F
  engine : EngineState F
  events : List Event
  setFilterFailed : Bool
deriving DecidableEq

/-- The direction-change branch of `process` (`lib.rs` lines 215-227).  When
the freshly computed direction differs from `lastDirection` and both the
dataset handle and the owned filter buffer are present, `sofa.filter`
overwrites the owned buffer in place with the new position's coefficients and
`render.set_filter` is attempted; only on success are the engine's installed
filter and `lastDirection` updated. -/
def steer {C S D F : Type} [DecidableEq D] (env : Env C S D F)
    (s : PluginState S D F) (render : EngineState F) (currentDirection : D) :
    SteerResult S D F :=
  if currentDirection ≠ s.lastDirection then
    match s.sofa, s.filter with
    | some _, some _ =>
      let newFilter := env.lookup currentDirection
      if env.setFilterOk newFilter then
        { state := { s with filter := some newFilter,
                            lastDirection := currentDirection },
          engine := { installed := newFilter },
          events := [Event.lookup, Event.install],
          setFilterFailed := false }
      else
        { state := { s with filter := some newFilter },
          engine := render,
          events := [Event.lookup, Event.install],
          setFilterFailed := true }
    | _, _ =>
      { state := s, engine := render, events := [], setFilterFailed := false }
  else
    { state := s, engine := render, events := [], setFilterFailed := false }

/-- Result of one `process` call: the reported status, the plugin state after
the call, the host buffer after the call, and the ordered external calls. -/
structure ProcResult (S D F : Type) : Type where
  status : ProcessStatus
  state : PluginState S D F
  buffer : Buffer S
  events : List Event
deriving DecidableEq

/-- The engine writing its stereo output into the first two channel slices
(`left_out` / `right_out`, `lib.rs` lines 241-243): the first `n` samples of
channels 0 and 1 are replaced. -/
def writeStereo {S : Type} (b : Buffer S) (l r : List S) (n : Nat) : Buffer S :=
  match b.channels with
  | c0 :: c1 :: rest =>
    { b with channels :=
        (l.take n ++ c0.drop n) :: (r.take n ++ c1.drop n) :: rest }
  | _ => b

/-- The scratch refill of `process` (`lib.rs` lines 238-239): clear the
pre-allocated scratch buffer, then `extend_from_slice` with the block's first
channel. -/
def scratchFor {S D F : Type} (s : PluginState S D F) (b : Buffer S) : Vec S :=
  (s.scratchBuffer.clear).extendFromSlice (b.channels.headD [])

/-- `HrtfConv::process` (`lib.rs` lines 194-251), with the three control
values passed as the once-per-block parameter snapshot.  Control flow matches
the source exactly: no renderer → Normal no-op; direction-change branch; early
error return on `set_filter` failure; Normal early return when the buffer has
fewer than two channels or zero samples; scratch refill by clear +
`extend_from_slice` of channel 0; `process_block`, whose failure yields an
error status. -/
def process {C S D F : Type} [DecidableEq D] (env : Env C S D F)
    (s : PluginState S D F) (az el dist : C) (buffer : Buffer S) :
    ProcResult S D F :=
  match s.renderer with
  | none =>
    { status := ProcessStatus.normal, state := s, buffer := buffer, events := [] }
  | some render0 =>
    let currentDirection := env.compute az el dist
    let st := steer env s render0 currentDirection
    let s1 := { st.state with renderer := some st.engine }
    if st.setFilterFailed then
      { status := ProcessStatus.error hrtfErrMsg, state := s1, buffer := buffer,
        events := st.events }
    else if buffer.channels.length < 2 ∨ buffer.numSamples = 0 then
      { status := ProcessStatus.normal, state := s1, buffer := buffer,
        events := st.events }
    else
      let scratch := scratchFor st.state buffer
      let s2 := { s1 with scratchBuffer := scratch }
      match env.renderBlock st.engine.installed scratch.data with
      | none =>
        { status := ProcessStatus.error hrtfErrMsg, state := s2, buffer := buffer,
          events := st.events ++ [Event.processBlock] }
      | some (l, r) =>
        { status := ProcessStatus.normal, state := s2,
          buffer := writeStereo buffer l r buffer.numSamples,
          events := st.events ++ [Event.processBlock] }

/-- Outcome of `HrtfConv::initialize`: `failed` is `return false` (state
untouched at that point), `ok` is `return true` with the updated state,
`panicked` models the `.expect` on `render.set_filter`. -/
inductive InitOutcome (S D F : Type) : Type where
  | failed : PluginState S D F → InitOutcome S D F
  | ok : PluginState S D F → InitOutcome S D F
  | panicked : InitOutcome S D F
deriving DecidableEq

/-- `HrtfConv::initialize` (`lib.rs` lines 131-187): open the dataset (failure
→ `false` before any state change), compute the direction from the current
parameter values, look up its filter, build the renderer (failure → `false`
before any state change), install the filter (failure panics via `.expect`),
then commit all fields and size the scratch buffer to the host's maximum
buffer size. -/
def initPlugin {C S D F : Type} (env : Env C S D F) (s : PluginState S D F)
    (az el dist : C) (maxBufferSize : Nat) (zero : S) : InitOutcome S D F :=
  if !env.openOk then InitOutcome.failed s
  else
    let currentDirection := env.compute az el dist
    let filt := env.lookup currentDirection
    if !env.buildOk then InitOutcome.failed s
    else if !env.setFilterOk filt then InitOutcome.panicked
    else
      InitOutcome.ok
        { sofa := some ()
          filter := some filt
          renderer := some { installed := filt }
          scratchBuffer := (s.scratchBuffer.clear).resize maxBufferSize zero
          lastDirection := currentDirection }

/-- A block of input for a sequence of `process` calls: the parameter snapshot
and the host buffer for that block. -/
structure BlockInput (C S : Type) : Type where
  az : C
  el : C
  dist : C
  buffer : Buffer S
deriving DecidableEq

/-- The state after running `process` over a sequence of blocks. -/
def processSeq {C S D F : Type} [DecidableEq D] (env : Env C S D F) :
    PluginState S D F → List (BlockInput C S) → PluginState S D F
  | s, [] => s
  | s, b :: bs =>
    processSeq env (process env s b.az b.el b.dist b.buffer).state bs

/-- The direction model of `process` and `initialize` (`lib.rs` lines 205-213
and 149-156), translated expression for expression with `f32` arithmetic
idealized as real arithmetic: degrees are converted to radians by
`to_radians`, then `x = dist * (cos el * cos az)`, `y = dist * (cos el *
sin az)`, `z = dist * sin el`. -/
noncomputable def computeDirection (azDeg elDeg dist : ℝ) : ℝ × ℝ × ℝ :=
  let az := azDeg * (Real.pi / 180)
  let el := elDeg * (Real.pi / 180)
  (dist * (Real.cos el * Real.cos az),
   dist * (Real.cos el * Real.sin az),
   dist * Real.sin el)

/-- The spec's own statement of the transform (§4.1): degrees to radians,
then `x = d·cos(el)·cos(az)`, `y = d·cos(el)·sin(az)`, `z = d·sin(el)`,
elevation measured from the horizontal plane. -/
noncomputable def specSphericalToCartesian (azDeg elDeg d : ℝ) : ℝ × ℝ × ℝ :=
  let az := azDeg * (Real.pi / 180)
  let el := elDeg * (Real.pi / 180)
  (d * Real.cos el * Real.cos az,
   d * Real.cos el * Real.sin az,
   d * Real.sin el)

/-- A concrete, fully successful environment over integer-valued controls,
directions, filters and samples, used to evaluate the theorems on concrete
inputs: the direction is the sum of the three control values and the filter
for direction `d` is `d + 100`. -/
def envA : Env Int Int Int Int :=
  { compute := fun a b c => a + b + c
    lookup := fun d => d + 100
    setFilterOk := fun _ => true
    renderBlock := fun _ xs => some (xs, xs)
    openOk := true
    buildOk := true }

/-- `envA` with a convolution engine that rejects every filter install. -/
def envFailInstall : Env Int Int Int Int :=
  { envA with setFilterOk := fun _ => false }

/-- `envA` with a convolution engine whose block renderer always fails. -/
def envFailRender : Env Int Int Int Int :=
  { envA with renderBlock := fun _ _ => none }

/-- `envA` with an HRTF dataset that fails to open. -/
def envFailOpen : Env Int Int Int Int :=
  { envA with openOk := false }

/-- A concrete Ready plugin state: dataset open, filter `0` installed,
scratch capacity 4, last direction `0`. -/
def readyState : PluginState Int Int Int :=
  { sofa := some ()
    filter := some 0
    renderer := some { installed := 0 }
    scratchBuffer := { data := [0, 0], cap := 4 }
    lastDirection := 0 }

/-- The state `initPlugin envA (defaultState 0) 0 0 0 4 0` produces. -/
def initState0 : PluginState Int Int Int :=
  { sofa := some ()
    filter := some 100
    renderer := some { installed := 100 }
    scratchBuffer := { data := [0, 0, 0, 0], cap := 4 }
    lastDirection := 0 }

/-- A concrete two-channel host buffer with two samples per channel. -/
def buf2 : Buffer Int :=
  { channels := [[1, 2], [3, 4]], numSamples := 2 }

/-- A concrete degenerate host buffer with a single channel. -/
def buf1 : Buffer Int :=
  { channels := [[1, 2]], numSamples := 2 }

/-- When the direction is unchanged, the steering branch does nothing. -/
theorem steer_unchanged {C S D F : Type} [DecidableEq D] (env : Env C S D F)
    (s : PluginState S D F) (r : EngineState F) (d : D)
    (h : d = s.lastDirection) :
    steer env s r d =
      { state := s, engine := r, events := [], setFilterFailed := false } := by
  simp [steer, h]

/-- When the direction changed, the dataset and filter are present, and the
engine accepts the new filter, the steering branch installs it and updates
`lastDirection`. -/
theorem steer_changed_ok {C S D F : Type} [DecidableEq D] (env : Env C S D F)
    (s : PluginState S D F) (r : EngineState F) (f0 : F) (d : D)
    (hd : d ≠ s.lastDirection) (hs : s.sofa = some ()) (hf : s.filter = some f0)
    (hok : env.setFilterOk (env.lookup d) = true) :
    steer env s r d =
      { state := { s with filter := some (env.lookup d), lastDirection := d }
        engine := { installed := env.lookup d }
        events := [Event.lookup, Event.install]
        setFilterFailed := false } := by
  simp [steer, hd, hs, hf, hok]

/-- When the direction changed but the engine rejects the new filter, the
steering branch leaves `lastDirection` and the engine untouched, yet the owned
filter buffer has already been overwritten in place by the dataset lookup. -/
theorem steer_changed_fail {C S D F : Type} [DecidableEq D] (env : Env C S D F)
    (s : PluginState S D F) (r : EngineState F) (f0 : F) (d : D)
    (hd : d ≠ s.lastDirection) (hs : s.sofa = some ()) (hf : s.filter = some f0)
    (hbad : env.setFilterOk (env.lookup d) = false) :
    steer env s r d =
      { state := { s with filter := some (env.lookup d) }
        engine := r
        events := [Event.lookup, Event.install]
        setFilterFailed := true } := by
  simp [steer, hd, hs, hf, hbad]

/-- The steering branch never touches the scratch buffer. -/
theorem steer_scratch {C S D F : Type} [DecidableEq D] (env : Env C S D F)
    (s : PluginState S D F) (r : EngineState F) (d : D) :
    (steer env s r d).state.scratchBuffer = s.scratchBuffer := by
  unfold steer
  split
  · cases hs : s.sofa <;> cases hf : s.filter <;> simp [hs, hf]
    split <;> rfl
  · rfl

/-- The steering branch never performs a `process_block` call. -/
theorem steer_no_processBlock {C S D F : Type} [DecidableEq D]
    (env : Env C S D F) (s : PluginState S D F) (r : EngineState F) (d : D) :
    Event.processBlock ∉ (steer env s r d).events := by
  unfold steer
  split
  · cases hs : s.sofa <;> cases hf : s.filter <;> simp [hs, hf]
    split <;> simp
  · simp

/-- The events of a `process` call on a plugin with a renderer are exactly the
steering branch's events followed by at most one `process_block` call. -/
theorem process_events_split {C S D F : Type} [DecidableEq D]
    (env : Env C S D F) (s : PluginState S D F) (r0 : EngineState F)
    (az el dist : C) (b : Buffer S) (hr : s.renderer = some r0) :
    ∃ t, (t = ([] : List Event) ∨ t = [Event.processBlock]) ∧
      (process env s az el dist b).events =
        (steer env s r0 (env.compute az el dist)).events ++ t := by
  unfold process
  rw [hr]
  dsimp only
  by_cases hf : (steer env s r0 (env.compute az el dist)).setFilterFailed
  · exact ⟨[], Or.inl rfl, by simp [hf]⟩
  · by_cases hb : b.channels.length < 2 ∨ b.numSamples = 0
    · exact ⟨[], Or.inl rfl, by simp [hf, hb]⟩
    · refine ⟨[Event.processBlock], Or.inr rfl, ?_⟩
      rw [if_neg hf, if_neg hb]
      split <;> rfl

/-- A successful `initPlugin` run commits exactly the state the source
commits: dataset handle set, the looked-up filter owned and installed,
`lastDirection` set to the computed direction, scratch buffer resized to the
host's maximum buffer size. -/
theorem initPlugin_ok_state {C S D F : Type} (env : Env C S D F)
    (s s0 : PluginState S D F) (az el dist : C) (m : Nat) (z : S)
    (h : initPlugin env s az el dist m z = InitOutcome.ok s0) :
    s0 = { sofa := some ()
           filter := some (env.lookup (env.compute az el dist))
           renderer := some { installed := env.lookup (env.compute az el dist) }
           scratchBuffer := (s.scratchBuffer.clear).resize m z
           lastDirection := env.compute az el dist } := by
  unfold initPlugin at h
  by_cases ho : env.openOk
  · by_cases hb : env.buildOk
    · by_cases hs : env.setFilterOk (env.lookup (env.compute az el dist))
      · simp [ho, hb, hs] at h
        exact h.symm
      · simp [ho, hb, hs] at h
    · simp [ho, hb] at h
  · simp [ho] at h

/-- Claim C1: on a Ready plugin (renderer, dataset handle and owned filter all
present), a `process` call performs the fetch-and-install if and only if the
computed direction differs from `lastDirection` under exact comparison: a
changed direction yields exactly one lookup followed by exactly one
`set_filter` call, both strictly before any `process_block` call of that
block, and an unchanged direction yields neither. -/
theorem process_fetch_iff_direction_changed {C S D F : Type} [DecidableEq D]
    (env : Env C S D F) (s : PluginState S D F) (r0 : EngineState F) (f0 : F)
    (az el dist : C) (b : Buffer S)
    (hr : s.renderer = some r0) (hs : s.sofa = some ())
    (hf : s.filter = some f0) :
    ∃ t, (t = ([] : List Event) ∨ t = [Event.processBlock]) ∧
      (process env s az el dist b).events =
        (if env.compute az el dist = s.lastDirection then []
         else [Event.lookup, Event.install]) ++ t := by
  obtain ⟨t, ht, he⟩ := process_events_split env s r0 az el dist b hr
  refine ⟨t, ht, ?_⟩
  rw [he]
  by_cases hd : env.compute az el dist = s.lastDirection
  · rw [steer_unchanged env s r0 _ hd, if_pos hd]
  · rw [if_neg hd]
    cases hok : env.setFilterOk (env.lookup (env.compute az el dist))
    · rw [steer_changed_fail env s r0 f0 _ hd hs hf hok]
    · rw [steer_changed_ok env s r0 f0 _ hd hs hf hok]

/-- Witness for C1 at a concrete Ready state and a direction change. -/
theorem process_fetch_iff_direction_changed_witness :
    ∃ t, (t = ([] : List Event) ∨ t = [Event.processBlock]) ∧
      (process envA readyState 1 0 0 buf2).events =
        (if envA.compute 1 0 0 = readyState.lastDirection then []
         else [Event.lookup, Event.install]) ++ t :=
  process_fetch_iff_direction_changed envA readyState { installed := 0 } 0
    1 0 0 buf2 rfl rfl rfl

/-- Claim C4: the plugin's direction computation equals the spec's
spherical-to-Cartesian transform (degrees converted to radians, elevation
measured from the horizontal plane), and the two concrete scenarios hold —
exactly, in the real-arithmetic idealization of `f32`: azimuth 0, elevation 0,
distance 1 gives (1,0,0), and azimuth 90, elevation 0, distance 1 gives
(0,1,0). -/
theorem computeDirection_matches_spec :
    (∀ az el d : ℝ,
      computeDirection az el d = specSphericalToCartesian az el d) ∧
    computeDirection 0 0 1 = (1, 0, 0) ∧
    computeDirection 90 0 1 = (0, 1, 0) := by
  refine ⟨fun az el d => ?_, ?_, ?_⟩
  · simp [computeDirection, specSphericalToCartesian, mul_assoc]
  · simp [computeDirection]
  · have h90 : (90 : ℝ) * (Real.pi / 180) = Real.pi / 2 := by ring
    simp [computeDirection, h90, Real.cos_pi_div_two, Real.sin_pi_div_two]

/-- Claim C5: a `process` call made with no renderer constructed is a no-op
that returns Normal status: the plugin state is untouched, the host buffer is
passed through unchanged, and no external call (lookup, install or engine
render) is made. -/
theorem process_uninitialized_noop {C S D F : Type} [DecidableEq D]
    (env : Env C S D F) (s : PluginState S D F) (az el dist : C) (b : Buffer S)
    (h : s.renderer = none) :
    process env s az el dist b =
      { status := ProcessStatus.normal, state := s, buffer := b,
        events := [] } := by
  unfold process
  rw [h]

/-- Witness for C5 at the default (uninitialized) state. -/
theorem process_uninitialized_noop_witness :
    process envA (defaultState 0 : PluginState Int Int Int) 1 2 3 buf2 =
      { status := ProcessStatus.normal, state := defaultState 0, buffer := buf2,
        events := [] } :=
  process_uninitialized_noop envA (defaultState 0) 1 2 3 buf2 rfl

/-- Claim C7: when the HRTF dataset cannot be opened or the convolution engine
cannot be built, `initialize` reports failure (returns `false`) without
touching the default state, the plugin never reaches Ready, and any subsequent
`process` call behaves as the Uninitialized no-op. -/
theorem initPlugin_failure_never_ready {C S D F : Type} [DecidableEq D]
    (env : Env C S D F) (d0 : D) (az el dist az2 el2 dist2 : C) (m : Nat)
    (z : S) (b : Buffer S)
    (h : env.openOk = false ∨ env.buildOk = false) :
    initPlugin env (defaultState d0) az el dist m z
      = InitOutcome.failed (defaultState d0) ∧
    process env (defaultState d0) az2 el2 dist2 b =
      { status := ProcessStatus.normal, state := defaultState d0, buffer := b,
        events := [] } := by
  constructor
  · cases ho : env.openOk
    · simp [initPlugin, ho]
    · rcases h with h | h
      · rw [h] at ho
        simp at ho
      · simp [initPlugin, ho, h]
  · rfl

/-- Witness for C7 with a failing dataset open. -/
theorem initPlugin_failure_never_ready_witness :
    initPlugin envFailOpen (defaultState 0 : PluginState Int Int Int) 0 0 0 4 0
      = InitOutcome.failed (defaultState 0) ∧
    process envFailOpen (defaultState 0 : PluginState Int Int Int) 1 0 0 buf2 =
      { status := ProcessStatus.normal, state := defaultState 0, buffer := buf2,
        events := [] } :=
  initPlugin_failure_never_ready envFailOpen 0 0 0 0 1 0 0 4 0 buf2
    (Or.inl rfl)

/-- Claim C10: after every successful `initialize`, `lastDirection` equals the
direction computed from the then-current parameter values and the engine's
installed filter is the filter looked up for exactly that direction; hence the
first subsequent `process` call with unchanged parameter values performs no
lookup and no `set_filter` call. -/
theorem initPlugin_ok_first_process_no_fetch {C S D F : Type} [DecidableEq D]
    (env : Env C S D F) (s s0 : PluginState S D F) (az el dist : C) (m : Nat)
    (z : S) (b : Buffer S)
    (h : initPlugin env s az el dist m z = InitOutcome.ok s0) :
    s0.lastDirection = env.compute az el dist ∧
    s0.renderer = some { installed := env.lookup (env.compute az el dist) } ∧
    Event.lookup ∉ (process env s0 az el dist b).events ∧
    Event.install ∉ (process env s0 az el dist b).events := by
  have hs0 := initPlugin_ok_state env s s0 az el dist m z h
  have hlast : s0.lastDirection = env.compute az el dist := by rw [hs0]
  have hrend : s0.renderer
      = some { installed := env.lookup (env.compute az el dist) } := by
    rw [hs0]
  refine ⟨hlast, hrend, ?_, ?_⟩ <;>
  · obtain ⟨t, ht, he⟩ := process_events_split env s0
      { installed := env.lookup (env.compute az el dist) } az el dist b hrend
    rw [he, steer_unchanged env s0 _ _ hlast.symm]
    rcases ht with ht | ht <;> subst ht <;> simp

/-- Witness for C10 at a concrete successful initialization. -/
theorem initPlugin_ok_first_process_no_fetch_witness :
    initState0.lastDirection = envA.compute 0 0 0 ∧
    initState0.renderer = some { installed := envA.lookup (envA.compute 0 0 0) } ∧
    Event.lookup ∉ (process envA initState0 0 0 0 buf2).events ∧
    Event.install ∉ (process envA initState0 0 0 0 buf2).events :=
  initPlugin_ok_first_process_no_fetch envA (defaultState 0) initState0
    0 0 0 4 0 buf2 (by decide)

/-- Claim C2 counterexample: after a rejected filter install the owned filter
buffer does not keep the prior coefficients — the in-place dataset lookup
(`sofa.filter`, `lib.rs` line 218) has already overwritten it with the new
position's filter before `set_filter` was attempted. -/
theorem process_install_failure_filter_overwritten_cex :
    (process envFailInstall readyState 1 0 0 buf2).status
        = ProcessStatus.error hrtfErrMsg ∧
    readyState.filter = some 0 ∧
    (process envFailInstall readyState 1 0 0 buf2).state.filter = some 101 ∧
    (process envFailInstall readyState 1 0 0 buf2).state.filter ≠ some 0 := by
  decide

/-- Claim C2 (amended): when the direction changed and the engine rejects the
new filter, the call returns the explicit error status, `lastDirection` is not
updated (so the next block retries the fetch for that same new position), the
engine keeps the previously installed filter active, and no block render
happens; the owned filter buffer, however, holds the new position's
coefficients, overwritten in place by the lookup before the failed install. -/
theorem process_install_failure_state {C S D F : Type} [DecidableEq D]
    (env : Env C S D F) (s : PluginState S D F) (r0 : EngineState F) (f0 : F)
    (az el dist : C) (b : Buffer S)
    (hr : s.renderer = some r0) (hs : s.sofa = some ())
    (hf : s.filter = some f0)
    (hd : env.compute az el dist ≠ s.lastDirection)
    (hbad : env.setFilterOk (env.lookup (env.compute az el dist)) = false) :
    (process env s az el dist b).status = ProcessStatus.error hrtfErrMsg ∧
    (process env s az el dist b).state.lastDirection = s.lastDirection ∧
    (process env s az el dist b).state.renderer = some r0 ∧
    (process env s az el dist b).state.filter
        = some (env.lookup (env.compute az el dist)) ∧
    Event.processBlock ∉ (process env s az el dist b).events ∧
    (process env s az el dist b).buffer = b := by
  have hst := steer_changed_fail env s r0 f0 _ hd hs hf hbad
  unfold process
  rw [hr]
  dsimp only
  rw [hst]
  simp

/-- Witness for the amended C2 at a concrete rejected install. -/
theorem process_install_failure_state_witness :
    (process envFailInstall readyState 1 0 0 buf2).state.lastDirection
      = readyState.lastDirection :=
  (process_install_failure_state envFailInstall readyState { installed := 0 } 0
    1 0 0 buf2 rfl rfl rfl (by decide) (by decide)).2.1

/-- Claim C6: when the engine's `process_block` fails, the call returns the
explicit error status and mutates no persisted filter or direction state after
the failure: the owned filter, `lastDirection` and the engine's installed
filter all keep the values they had when `process_block` was entered, so the
next block resumes with the last-known-good filter. -/
theorem process_render_failure_resumes {C S D F : Type} [DecidableEq D]
    (env : Env C S D F) (s : PluginState S D F) (r0 : EngineState F)
    (az el dist : C) (b : Buffer S)
    (hr : s.renderer = some r0)
    (hok : (steer env s r0 (env.compute az el dist)).setFilterFailed = false)
    (hch : ¬(b.channels.length < 2 ∨ b.numSamples = 0))
    (hfail : env.renderBlock
        (steer env s r0 (env.compute az el dist)).engine.installed
        (scratchFor (steer env s r0 (env.compute az el dist)).state b).data
      = none) :
    (process env s az el dist b).status = ProcessStatus.error hrtfErrMsg ∧
    (process env s az el dist b).state.filter
        = (steer env s r0 (env.compute az el dist)).state.filter ∧
    (process env s az el dist b).state.lastDirection
        = (steer env s r0 (env.compute az el dist)).state.lastDirection ∧
    (process env s az el dist b).state.renderer
        = some (steer env s r0 (env.compute az el dist)).engine ∧
    (process env s az el dist b).events
        = (steer env s r0 (env.compute az el dist)).events
            ++ [Event.processBlock] := by
  unfold process
  rw [hr]
  dsimp only
  rw [hok, hfail]
  simp [hch]

/-- Witness for C6 at a concrete engine render failure. -/
theorem process_render_failure_resumes_witness :
    (process envFailRender readyState 0 0 0 buf2).status
      = ProcessStatus.error hrtfErrMsg :=
  (process_render_failure_resumes envFailRender readyState { installed := 0 }
    0 0 0 buf2 rfl (by decide) (by decide) rfl).1

/-- One `process` call never grows the scratch buffer's capacity when the
block's first channel fits in it. -/
theorem process_scratch_cap {C S D F : Type} [DecidableEq D]
    (env : Env C S D F) (s : PluginState S D F) (az el dist : C) (b : Buffer S)
    (h : (b.channels.headD []).length ≤ s.scratchBuffer.cap) :
    (process env s az el dist b).state.scratchBuffer.cap
      = s.scratchBuffer.cap := by
  unfold process
  cases hr : s.renderer with
  | none => rfl
  | some r0 =>
    dsimp only
    have hsc := steer_scratch env s r0 (env.compute az el dist)
    by_cases hfl : (steer env s r0 (env.compute az el dist)).setFilterFailed
    · simp [hfl, hsc]
    · by_cases hb : b.channels.length < 2 ∨ b.numSamples = 0
      · simp [hfl, hb, hsc]
      · have h' : (b.channels.head?.getD []).length ≤ s.scratchBuffer.cap := by
          simpa using h
        simp only [hfl, hb, Bool.false_eq_true, if_false, ite_false]
        split <;>
          simp [scratchFor, Vec.clear, Vec.extendFromSlice, hsc,
            Nat.max_eq_left h']

/-- Processing a sequence of blocks whose first channels all fit in a scratch
capacity `m` keeps the capacity at `m` throughout. -/
theorem processSeq_scratch_cap {C S D F : Type} [DecidableEq D]
    (env : Env C S D F) (m : Nat) (bs : List (BlockInput C S)) :
    ∀ s : PluginState S D F, s.scratchBuffer.cap = m →
      (∀ bi ∈ bs, (bi.buffer.channels.headD []).length ≤ m) →
      (processSeq env s bs).scratchBuffer.cap = m := by
  induction bs with
  | nil =>
    intro s hs _
    exact hs
  | cons b bs ih =>
    intro s hs hall
    have hstep := process_scratch_cap env s b.az b.el b.dist b.buffer
      (by rw [hs]; exact hall b (List.mem_cons_self b bs))
    unfold processSeq
    exact ih _ (by rw [hstep, hs])
      (fun bi hbi => hall bi (List.mem_cons_of_mem b hbi))

/-- Claim C8: after a successful `initialize` from the default state with
maximum block size `m`, the scratch buffer's capacity is exactly `m`, and
processing any sequence of blocks whose first-channel slices are at most `m`
samples long (for instance 1000 blocks of 512 with `m = 512`) never grows it:
the scratch buffer is only cleared and refilled, never reallocated. -/
theorem scratch_cap_never_grows {C S D F : Type} [DecidableEq D]
    (env : Env C S D F) (d0 : D) (az el dist : C) (m : Nat) (z : S)
    (s0 : PluginState S D F) (bs : List (BlockInput C S))
    (hinit : initPlugin env (defaultState d0) az el dist m z
      = InitOutcome.ok s0)
    (hbs : ∀ bi ∈ bs, (bi.buffer.channels.headD []).length ≤ m) :
    s0.scratchBuffer.cap = m ∧
    (processSeq env s0 bs).scratchBuffer.cap = m := by
  have hs0 := initPlugin_ok_state env _ s0 az el dist m z hinit
  have hcap : s0.scratchBuffer.cap = m := by
    rw [hs0]
    simp [defaultState, Vec.clear, Vec.resize]
  exact ⟨hcap, processSeq_scratch_cap env m bs s0 hcap hbs⟩

/-- Witness for C8 at a concrete initialization and a two-block sequence. -/
theorem scratch_cap_never_grows_witness :
    initState0.scratchBuffer.cap = 4 ∧
    (processSeq envA initState0
        [{ az := 1, el := 0, dist := 0, buffer := buf2 },
         { az := 1, el := 0, dist := 0, buffer := buf2 }]).scratchBuffer.cap
      = 4 :=
  scratch_cap_never_grows envA 0 0 0 0 4 0 initState0
    [{ az := 1, el := 0, dist := 0, buffer := buf2 },
     { az := 1, el := 0, dist := 0, buffer := buf2 }] (by decide) (by decide)

/-- Claim C9 counterexample: on a Ready plugin with a single-channel host
buffer, a `process` call need not return Normal — when the direction changed
and the engine rejects the new filter, the error return precedes the channel
check. -/
theorem process_degenerate_buffer_cex :
    buf1.channels.length < 2 ∧
    readyState.renderer = some { installed := 0 } ∧
    readyState.sofa = some () ∧
    (process envFailInstall readyState 1 0 0 buf1).status
      ≠ ProcessStatus.normal := by
  decide

/-- Claim C9 (amended): on a Ready plugin whose host buffer has fewer than two
channels or zero samples, provided the steering branch did not fail a filter
install (if it did, `process` instead returns the error status before the
channel check), the call returns Normal without calling the engine's block
renderer and without writing any output samples, while direction-change
detection and fetch-and-install have already executed: the resulting state is
exactly the steering branch's state with its engine, so a changed direction is
adopted and `lastDirection` updated even for a block that renders nothing. -/
theorem process_degenerate_buffer_steers {C S D F : Type} [DecidableEq D]
    (env : Env C S D F) (s : PluginState S D F) (r0 : EngineState F)
    (az el dist : C) (b : Buffer S)
    (hr : s.renderer = some r0)
    (hb : b.channels.length < 2 ∨ b.numSamples = 0)
    (hok : (steer env s r0 (env.compute az el dist)).setFilterFailed
      = false) :
    process env s az el dist b =
      { status := ProcessStatus.normal
        state := { (steer env s r0 (env.compute az el dist)).state with
                     renderer :=
                       some (steer env s r0 (env.compute az el dist)).engine }
        buffer := b
        events := (steer env s r0 (env.compute az el dist)).events } ∧
    Event.processBlock ∉ (process env s az el dist b).events := by
  have heq : process env s az el dist b =
      { status := ProcessStatus.normal
        state := { (steer env s r0 (env.compute az el dist)).state with
                     renderer :=
                       some (steer env s r0 (env.compute az el dist)).engine }
        buffer := b
        events := (steer env s r0 (env.compute az el dist)).events } := by
    unfold process
    rw [hr]
    dsimp only
    rw [hok]
    simp [hb]
  refine ⟨heq, ?_⟩
  rw [heq]
  simpa using steer_no_processBlock env s r0 (env.compute az el dist)

/-- Witness for the amended C9 at a concrete single-channel block with a
successful direction change. -/
theorem process_degenerate_buffer_steers_witness :
    Event.processBlock ∉ (process envA readyState 1 0 0 buf1).events :=
  (process_degenerate_buffer_steers envA readyState { installed := 0 }
    1 0 0 buf1 rfl (by decide) (by decide)).2

end HrtfConv
